import Mathlib

/-!
Shallow embedding of `programs/agent-registry/src/lib.rs` (an Anchor/Solana
program): agent-profile registry, task escrow state machine, and incremental
reputation aggregation.

Modelling conventions:
- `Pubkey` is an abstract identity, modelled as `Nat`.
- `u64` quantities (lamports, counters, accumulators) are modelled as `Nat`;
  all claims concern regimes far below `2^64`, and the Anchor build aborts the
  whole transaction on overflow, so wrapped values never commit.
- Each instruction handler becomes a pure function returning
  `Except TxError _`; an `Except.error` result models the failed transaction,
  whose state is discarded by the runtime (no partial writes commit).  The
  `commit*` wrappers make this explicit: on error the pre-state is kept.
- Anchor account-constraint checks (`constraint = ... @ Error`, `has_one`)
  run before the handler body, in account-declaration order; they are
  translated as the leading checks of each `*Tx` function.
- Rust `String::len()` counts UTF-8 bytes, so string lengths use
  `String.utf8ByteSize`.
-/

namespace AgentRegistry

abbrev Pubkey := Nat

/-- Maximum lengths for string fields stored on-chain (lib.rs lines 6-9). -/
def MAX_NAME_LEN : Nat := 64

def MAX_CAPABILITIES : Nat := 8

def MAX_CAPABILITY_LEN : Nat := 32

def MAX_METADATA_URI_LEN : Nat := 200

/-- `AgentStatus` enum (lib.rs lines 433-437). -/
inductive AgentStatus
  | active
  | inactive
  deriving DecidableEq, Repr

/-- `TaskStatus` enum (lib.rs lines 439-445). -/
inductive TaskStatus
  | funded
  | inProgress
  | completed
  | disputed
  deriving DecidableEq, Repr

/-- `RegistryError` enum (lib.rs lines 508-534). -/
inductive RegistryError
  | nameTooLong
  | tooManyCapabilities
  | capabilityTooLong
  | metadataUriTooLong
  | invalidPricing
  | invalidTaskStatus
  | agentNotActive
  | invalidAmount
  | invalidRating
  | unauthorized
  | agentMismatch
  | taskIdTooLong
  deriving DecidableEq, Repr

/-- A transaction failure: either a program `RegistryError`, an Anchor
`has_one` constraint violation, or a system-program transfer failure
(insufficient funds in `create_task`). -/
inductive TxError
  | registry (e : RegistryError)
  | constraintHasOne
  | insufficientFunds
  deriving DecidableEq, Repr

/-- `AgentProfile` account state (lib.rs lines 387-411). -/
structure AgentProfile where
  owner : Pubkey
  name : String
  capabilities : List String
  pricing_lamports : Nat
  status : AgentStatus
  reputation_score : Nat
  tasks_completed : Nat
  total_ratings : Nat
  rating_sum : Nat
  metadata_uri : String
  bump : Nat
  deriving DecidableEq, Repr

/-- `TaskEscrow` account state (lib.rs lines 413-429).  The lamports held by
the escrow account (its custodied balance) live on the account, not in this
struct, and are threaded separately through the transaction functions. -/
structure TaskEscrow where
  client : Pubkey
  agent : Pubkey
  amount : Nat
  status : TaskStatus
  task_id : String
  created_at : Int
  bump : Nat
  deriving DecidableEq, Repr

/-- `register_agent` (lib.rs lines 27-74): validates the fields in source
order, then creates the profile with `status = Active` and zeroed counters. -/
def registerAgent (owner : Pubkey) (name : String) (capabilities : List String)
    (pricing_lamports : Nat) (metadata_uri : String) (bump : Nat) :
    Except TxError AgentProfile :=
  if MAX_NAME_LEN < name.utf8ByteSize then .error (.registry .nameTooLong)
  else if MAX_CAPABILITIES < capabilities.length then
    .error (.registry .tooManyCapabilities)
  else if capabilities.any (fun cap => MAX_CAPABILITY_LEN < cap.utf8ByteSize) then
    .error (.registry .capabilityTooLong)
  else if MAX_METADATA_URI_LEN < metadata_uri.utf8ByteSize then
    .error (.registry .metadataUriTooLong)
  else if pricing_lamports = 0 then .error (.registry .invalidPricing)
  else .ok
    { owner := owner
      name := name
      capabilities := capabilities
      pricing_lamports := pricing_lamports
      status := .active
      reputation_score := 0
      tasks_completed := 0
      total_ratings := 0
      rating_sum := 0
      metadata_uri := metadata_uri
      bump := bump }

/-- The `if let Some(n) = &name` block of `update_agent` (lib.rs lines 86-89). -/
def updateName (profile : AgentProfile) (name : Option String) :
    Except TxError AgentProfile :=
  match name with
  | some n =>
    if MAX_NAME_LEN < n.utf8ByteSize then .error (.registry .nameTooLong)
    else .ok { profile with name := n }
  | none => .ok profile

/-- The `if let Some(caps) = &capabilities` block of `update_agent`
(lib.rs lines 91-103). -/
def updateCapabilities (profile : AgentProfile)
    (capabilities : Option (List String)) : Except TxError AgentProfile :=
  match capabilities with
  | some caps =>
    if MAX_CAPABILITIES < caps.length then .error (.registry .tooManyCapabilities)
    else if caps.any (fun cap => MAX_CAPABILITY_LEN < cap.utf8ByteSize) then
      .error (.registry .capabilityTooLong)
    else .ok { profile with capabilities := caps }
  | none => .ok profile

/-- The `if let Some(p) = pricing_lamports` block of `update_agent`
(lib.rs lines 105-108). -/
def updatePricing (profile : AgentProfile) (pricing_lamports : Option Nat) :
    Except TxError AgentProfile :=
  match pricing_lamports with
  | some p =>
    if p = 0 then .error (.registry .invalidPricing)
    else .ok { profile with pricing_lamports := p }
  | none => .ok profile

/-- The `if let Some(uri) = &metadata_uri` block of `update_agent`
(lib.rs lines 110-116). -/
def updateMetadataUri (profile : AgentProfile) (metadata_uri : Option String) :
    Except TxError AgentProfile :=
  match metadata_uri with
  | some uri =>
    if MAX_METADATA_URI_LEN < uri.utf8ByteSize then
      .error (.registry .metadataUriTooLong)
    else .ok { profile with metadata_uri := uri }
  | none => .ok profile

/-- `update_agent` (lib.rs lines 77-124) behind the `UpdateAgent` account
constraints (lib.rs lines 297-308: `has_one = owner` with `owner` a signer).
The four optional fields are validated and replaced in source order; the first
failing check aborts the transaction. -/
def updateAgentTx (profile : AgentProfile) (owner : Pubkey)
    (name : Option String) (capabilities : Option (List String))
    (pricing_lamports : Option Nat) (metadata_uri : Option String) :
    Except TxError AgentProfile :=
  if profile.owner ≠ owner then .error .constraintHasOne
  else
    (updateName profile name).bind fun p1 =>
      (updateCapabilities p1 capabilities).bind fun p2 =>
        (updatePricing p2 pricing_lamports).bind fun p3 =>
          updateMetadataUri p3 metadata_uri

/-- `deactivate_agent` (lib.rs lines 127-137) behind the `UpdateAgent`
constraints. -/
def deactivateAgentTx (profile : AgentProfile) (owner : Pubkey) :
    Except TxError AgentProfile :=
  if profile.owner ≠ owner then .error .constraintHasOne
  else .ok { profile with status := .inactive }

/-- `activate_agent` (lib.rs lines 140-150) behind the `UpdateAgent`
constraints. -/
def activateAgentTx (profile : AgentProfile) (owner : Pubkey) :
    Except TxError AgentProfile :=
  if profile.owner ≠ owner then .error .constraintHasOne
  else .ok { profile with status := .active }

/-- `create_task` (lib.rs lines 153-200): validates `task_id` length, amount,
and agent activity in source order, transfers `amount_lamports` from the
client to the escrow account, then initialises the escrow record with
`status = Funded`.  Returns the new escrow record, its custodied lamports,
and the client's remaining lamports. -/
def createTaskTx (client : Pubkey) (clientLamports : Nat)
    (agentProfileKey : Pubkey) (agent_profile : AgentProfile)
    (task_id : String) (amount_lamports : Nat) (now : Int) (bump : Nat) :
    Except TxError (TaskEscrow × Nat × Nat) :=
  if 64 < task_id.utf8ByteSize then .error (.registry .taskIdTooLong)
  else if amount_lamports = 0 then .error (.registry .invalidAmount)
  else if agent_profile.status ≠ .active then .error (.registry .agentNotActive)
  else if clientLamports < amount_lamports then .error .insufficientFunds
  else .ok
    ({ client := client
       agent := agentProfileKey
       amount := amount_lamports
       status := .funded
       task_id := task_id
       created_at := now
       bump := bump },
     amount_lamports,
     clientLamports - amount_lamports)

/-- `accept_task` (lib.rs lines 203-218) behind the `AgentAction` constraints
(lib.rs lines 330-347): `task_escrow.agent == agent_profile.key()` with error
`AgentMismatch`, then `agent_profile.owner == agent_owner.key()` (a signer)
with error `Unauthorized`.  The handler requires `status == Funded` and sets
`status = InProgress`. -/
def acceptTaskTx (escrow : TaskEscrow) (agentProfileKey : Pubkey)
    (profile : AgentProfile) (agent_owner : Pubkey) :
    Except TxError TaskEscrow :=
  if escrow.agent ≠ agentProfileKey then .error (.registry .agentMismatch)
  else if profile.owner ≠ agent_owner then .error (.registry .unauthorized)
  else if escrow.status ≠ .funded then .error (.registry .invalidTaskStatus)
  else .ok { escrow with status := .inProgress }

/-- `complete_task` (lib.rs lines 221-250) behind the `CompleteTask`
constraints (lib.rs lines 349-367, the same two checks as `AgentAction`).
The handler requires `status == InProgress`, sets `status = Completed`, moves
`escrow.amount` lamports from the escrow account to the agent owner, and
increments `tasks_completed`.  Returns (escrow record, escrow lamports,
profile, agent-owner lamports). -/
def completeTaskTx (escrow : TaskEscrow) (escrowLamports : Nat)
    (agentProfileKey : Pubkey) (profile : AgentProfile)
    (agent_owner : Pubkey) (ownerLamports : Nat) :
    Except TxError (TaskEscrow × Nat × AgentProfile × Nat) :=
  if escrow.agent ≠ agentProfileKey then .error (.registry .agentMismatch)
  else if profile.owner ≠ agent_owner then .error (.registry .unauthorized)
  else if escrow.status ≠ .inProgress then .error (.registry .invalidTaskStatus)
  else
    let amount := escrow.amount
    .ok ({ escrow with status := .completed },
         escrowLamports - amount,
         { profile with tasks_completed := profile.tasks_completed + 1 },
         ownerLamports + amount)

/-- `rate_agent` (lib.rs lines 253-275) behind the `RateAgent` constraints
(lib.rs lines 369-383): `has_one = client` on the escrow (with `client` a
signer), then `agent_profile.key() == task_escrow.agent` with error
`AgentMismatch`.  The handler requires `rating ∈ [1,5]` and
`status == Completed`, then updates the three reputation accumulators. -/
def rateAgentTx (escrow : TaskEscrow) (agentProfileKey : Pubkey)
    (profile : AgentProfile) (client : Pubkey) (rating : Nat) :
    Except TxError AgentProfile :=
  if escrow.client ≠ client then .error .constraintHasOne
  else if agentProfileKey ≠ escrow.agent then .error (.registry .agentMismatch)
  else if ¬ (1 ≤ rating ∧ rating ≤ 5) then .error (.registry .invalidRating)
  else if escrow.status ≠ .completed then .error (.registry .invalidTaskStatus)
  else
    let total_ratings := profile.total_ratings + 1
    let rating_sum := profile.rating_sum + rating
    .ok { profile with
          total_ratings := total_ratings
          rating_sum := rating_sum
          reputation_score := rating_sum * 100 / total_ratings }

/-- Commit semantics of the runtime for `update_agent`: on error the
transaction is discarded and the pre-state is kept. -/
def commitUpdate (profile : AgentProfile) (owner : Pubkey)
    (name : Option String) (capabilities : Option (List String))
    (pricing_lamports : Option Nat) (metadata_uri : Option String) :
    AgentProfile :=
  match updateAgentTx profile owner name capabilities pricing_lamports metadata_uri with
  | .ok p => p
  | .error _ => profile

/-- Commit semantics for `accept_task`. -/
def commitAccept (escrow : TaskEscrow) (agentProfileKey : Pubkey)
    (profile : AgentProfile) (agent_owner : Pubkey) : TaskEscrow :=
  match acceptTaskTx escrow agentProfileKey profile agent_owner with
  | .ok e => e
  | .error _ => escrow

/-- Commit semantics for `complete_task`. -/
def commitComplete (escrow : TaskEscrow) (escrowLamports : Nat)
    (agentProfileKey : Pubkey) (profile : AgentProfile)
    (agent_owner : Pubkey) (ownerLamports : Nat) :
    TaskEscrow × Nat × AgentProfile × Nat :=
  match completeTaskTx escrow escrowLamports agentProfileKey profile agent_owner ownerLamports with
  | .ok r => r
  | .error _ => (escrow, escrowLamports, profile, ownerLamports)

/-- Commit semantics for `rate_agent`. -/
def commitRate (escrow : TaskEscrow) (agentProfileKey : Pubkey)
    (profile : AgentProfile) (client : Pubkey) (rating : Nat) : AgentProfile :=
  match rateAgentTx escrow agentProfileKey profile client rating with
  | .ok p => p
  | .error _ => profile

/-- Commit semantics for `create_task`: on error no escrow record exists and
the client's lamports are untouched. -/
def commitCreate (client : Pubkey) (clientLamports : Nat)
    (agentProfileKey : Pubkey) (agent_profile : AgentProfile)
    (task_id : String) (amount_lamports : Nat) (now : Int) (bump : Nat) :
    Option (TaskEscrow × Nat) × Nat :=
  match createTaskTx client clientLamports agentProfileKey agent_profile task_id amount_lamports now bump with
  | .ok (e, el, cl) => (some (e, el), cl)
  | .error _ => (none, clientLamports)

/-! ### Per-record operation traces

The program's shared mutable records are the `AgentProfile` and `TaskEscrow`
accounts; every mutation is funnelled through the instruction handlers above.
A trace fixes one record and applies an arbitrary sequence of operations to
it, each operation carrying arbitrary values for the other accounts involved;
a failed transaction leaves the record unchanged (commit semantics). -/

/-- One operation applied to a fixed agent profile, carrying the other
inputs of the corresponding instruction.  `create_task` and `accept_task`
only read the profile. -/
inductive ProfileOp
  | update (owner : Pubkey) (name : Option String)
      (capabilities : Option (List String)) (pricing_lamports : Option Nat)
      (metadata_uri : Option String)
  | deactivate (owner : Pubkey)
  | activate (owner : Pubkey)
  | createTask (client : Pubkey) (clientLamports : Nat)
      (agentProfileKey : Pubkey) (task_id : String) (amount_lamports : Nat)
      (now : Int) (bump : Nat)
  | acceptTask (escrow : TaskEscrow) (agentProfileKey : Pubkey)
      (agent_owner : Pubkey)
  | completeTask (escrow : TaskEscrow) (escrowLamports : Nat)
      (agentProfileKey : Pubkey) (agent_owner : Pubkey) (ownerLamports : Nat)
  | rate (escrow : TaskEscrow) (agentProfileKey : Pubkey) (client : Pubkey)
      (rating : Nat)

/-- Committed effect of one operation on a fixed agent profile. -/
def stepProfile (p : AgentProfile) (op : ProfileOp) : AgentProfile :=
  match op with
  | .update owner name c pr u => commitUpdate p owner name c pr u
  | .deactivate owner =>
    match deactivateAgentTx p owner with
    | .ok p' => p'
    | .error _ => p
  | .activate owner =>
    match activateAgentTx p owner with
    | .ok p' => p'
    | .error _ => p
  | .createTask _ _ _ _ _ _ _ => p
  | .acceptTask _ _ _ => p
  | .completeTask e el k o ol =>
    match completeTaskTx e el k p o ol with
    | .ok r => r.2.2.1
    | .error _ => p
  | .rate e k c r => commitRate e k p c r

/-- A profile after a sequence of operations. -/
def runProfileOps (p : AgentProfile) (ops : List ProfileOp) : AgentProfile :=
  ops.foldl stepProfile p

/-- The reputation invariant of §3 of the spec:
`reputation_score == floor(rating_sum * 100 / total_ratings)` whenever
`total_ratings > 0`, and `reputation_score == 0` when `total_ratings == 0`. -/
def RepInvariant (p : AgentProfile) : Prop :=
  (p.total_ratings ≠ 0 →
    p.reputation_score = p.rating_sum * 100 / p.total_ratings) ∧
  (p.total_ratings = 0 → p.reputation_score = 0)

/-- One operation applied to a fixed escrow record.  `rate_agent` only reads
the escrow; `accept_task` and `complete_task` are the only handlers that
write its status. -/
inductive EscrowOp
  | accept (agentProfileKey : Pubkey) (profile : AgentProfile)
      (agent_owner : Pubkey)
  | complete (escrowLamports : Nat) (agentProfileKey : Pubkey)
      (profile : AgentProfile) (agent_owner : Pubkey) (ownerLamports : Nat)
  | rate (agentProfileKey : Pubkey) (profile : AgentProfile) (client : Pubkey)
      (rating : Nat)

/-- Committed effect of one operation on a fixed escrow record. -/
def stepEscrow (e : TaskEscrow) (op : EscrowOp) : TaskEscrow :=
  match op with
  | .accept k p o => commitAccept e k p o
  | .complete el k p o ol => (commitComplete e el k p o ol).1
  | .rate _ _ _ _ => e

/-- An escrow after a sequence of operations. -/
def runEscrowOps (e : TaskEscrow) (ops : List EscrowOp) : TaskEscrow :=
  ops.foldl stepEscrow e

/-- Position of a status along the `Funded → InProgress → Completed` chain. -/
def statusRank : TaskStatus → Nat
  | .funded => 0
  | .inProgress => 1
  | .completed => 2
  | .disputed => 3

/-! ### Concrete sample values used by the witness theorems -/

/-- A concrete agent profile (owner 9) as produced by a successful
registration. -/
def sampleProfile : AgentProfile :=
  { owner := 9
    name := "agent"
    capabilities := ["code"]
    pricing_lamports := 100
    status := .active
    reputation_score := 0
    tasks_completed := 0
    total_ratings := 0
    rating_sum := 0
    metadata_uri := ""
    bump := 1 }

/-- A concrete escrow (client 3, agent profile address 7, amount 500) in a
given status. -/
def sampleEscrow (st : TaskStatus) : TaskEscrow :=
  { client := 3
    agent := 7
    amount := 500
    status := st
    task_id := "t1"
    created_at := 0
    bump := 2 }

/-! ### Claim theorems -/

/-- Claim C1: with the agent-owner signature and matching profile, and with
the escrow account custodying exactly the escrowed amount, `complete_task`
succeeds from `InProgress` and atomically sets the status to `Completed`,
drains the custodied balance to 0 (reducing it by exactly `amount`), credits
the agent owner's balance with exactly `amount`, and increments
`tasks_completed` by exactly 1; from any other status it fails with
`InvalidTaskStatus`. -/
theorem complete_task_atomic_spec (escrow : TaskEscrow) (escrowLamports : Nat)
    (agentProfileKey : Pubkey) (profile : AgentProfile) (agent_owner : Pubkey)
    (ownerLamports : Nat)
    (hk : escrow.agent = agentProfileKey) (ho : profile.owner = agent_owner)
    (hcust : escrowLamports = escrow.amount) :
    (escrow.status = .inProgress →
      completeTaskTx escrow escrowLamports agentProfileKey profile agent_owner ownerLamports =
        .ok ({ escrow with status := .completed },
             escrowLamports - escrow.amount,
             { profile with tasks_completed := profile.tasks_completed + 1 },
             ownerLamports + escrow.amount) ∧
      escrowLamports - escrow.amount = 0) ∧
    (escrow.status ≠ .inProgress →
      completeTaskTx escrow escrowLamports agentProfileKey profile agent_owner ownerLamports =
        .error (.registry .invalidTaskStatus)) := by
  constructor
  · intro hs
    constructor
    · simp [completeTaskTx, hk, ho, hs]
    · simp [hcust]
  · intro hs
    simp [completeTaskTx, hk, ho, hs]

/-- Witness for C1 at a concrete `InProgress` escrow. -/
theorem complete_task_atomic_spec_witness :
    (completeTaskTx (sampleEscrow .inProgress) 500 7 sampleProfile 9 1000 =
      .ok ({ sampleEscrow .inProgress with status := .completed },
           500 - (sampleEscrow .inProgress).amount,
           { sampleProfile with tasks_completed := sampleProfile.tasks_completed + 1 },
           1000 + (sampleEscrow .inProgress).amount) ∧
      500 - (sampleEscrow .inProgress).amount = 0) :=
  (complete_task_atomic_spec (sampleEscrow .inProgress) 500 7 sampleProfile 9 1000
    rfl rfl rfl).1 rfl

/-- Claim C6: with the agent-owner signature and matching profile,
`accept_task` succeeds exactly from `Funded` (setting the status to
`InProgress` and changing nothing else), and a second call on the resulting
`InProgress` escrow fails with `InvalidTaskStatus`, leaving the escrow
unchanged. -/
theorem accept_task_only_from_funded (escrow : TaskEscrow)
    (agentProfileKey : Pubkey) (profile : AgentProfile) (agent_owner : Pubkey)
    (hk : escrow.agent = agentProfileKey) (ho : profile.owner = agent_owner) :
    (escrow.status = .funded →
      acceptTaskTx escrow agentProfileKey profile agent_owner =
        .ok { escrow with status := .inProgress }) ∧
    (∀ e', acceptTaskTx escrow agentProfileKey profile agent_owner = .ok e' →
      escrow.status = .funded) ∧
    (escrow.status = .funded →
      acceptTaskTx { escrow with status := .inProgress } agentProfileKey profile agent_owner =
        .error (.registry .invalidTaskStatus) ∧
      commitAccept { escrow with status := .inProgress } agentProfileKey profile agent_owner =
        { escrow with status := .inProgress }) := by
  refine ⟨?_, ?_, ?_⟩
  · intro hs
    simp [acceptTaskTx, hk, ho, hs]
  · intro e' h
    by_contra hs
    simp [acceptTaskTx, hk, ho, hs] at h
  · intro hs
    have h2 : acceptTaskTx { escrow with status := .inProgress } agentProfileKey profile agent_owner =
        .error (.registry .invalidTaskStatus) := by
      simp [acceptTaskTx, hk, ho]
    exact ⟨h2, by simp [commitAccept, h2]⟩

/-- Witness for C6 at a concrete `Funded` escrow. -/
theorem accept_task_only_from_funded_witness :
    acceptTaskTx (sampleEscrow .funded) 7 sampleProfile 9 =
      .ok { sampleEscrow .funded with status := .inProgress } :=
  (accept_task_only_from_funded (sampleEscrow .funded) 7 sampleProfile 9 rfl rfl).1 rfl

/-- Claim C9: neither `accept_task` nor `complete_task` checks the agent
profile's Active/Inactive status: with valid authorization and the required
escrow status they succeed even when the profile is `Inactive`, while
`create_task` (the only operation with the Active check) fails with
`AgentNotActive` for that same inactive profile even on otherwise valid
inputs. -/
theorem accept_complete_ignore_agent_status (escrow : TaskEscrow)
    (escrowLamports : Nat) (agentProfileKey : Pubkey) (profile : AgentProfile)
    (agent_owner : Pubkey) (ownerLamports : Nat)
    (client : Pubkey) (clientLamports : Nat) (task_id : String)
    (amount_lamports : Nat) (now : Int) (bump : Nat)
    (hk : escrow.agent = agentProfileKey) (ho : profile.owner = agent_owner)
    (hInactive : profile.status = .inactive) :
    (escrow.status = .funded →
      ∃ e', acceptTaskTx escrow agentProfileKey profile agent_owner = .ok e') ∧
    (escrow.status = .inProgress →
      ∃ r, completeTaskTx escrow escrowLamports agentProfileKey profile agent_owner ownerLamports =
        .ok r) ∧
    (task_id.utf8ByteSize ≤ 64 → amount_lamports ≠ 0 →
      createTaskTx client clientLamports agentProfileKey profile task_id amount_lamports now bump =
        .error (.registry .agentNotActive)) := by
  refine ⟨?_, ?_, ?_⟩
  · intro hs
    exact ⟨{ escrow with status := .inProgress }, by simp [acceptTaskTx, hk, ho, hs]⟩
  · intro hs
    exact ⟨({ escrow with status := .completed },
            escrowLamports - escrow.amount,
            { profile with tasks_completed := profile.tasks_completed + 1 },
            ownerLamports + escrow.amount),
          by simp [completeTaskTx, hk, ho, hs]⟩
  · intro ht ha
    simp [createTaskTx, ht, ha, hInactive]

/-- Witness for C9 at a concrete inactive profile. -/
theorem accept_complete_ignore_agent_status_witness :
    (∃ e', acceptTaskTx (sampleEscrow .funded) 7 { sampleProfile with status := .inactive } 9 =
      .ok e') ∧
    createTaskTx 3 1000 7 { sampleProfile with status := .inactive } "t2" 250 0 2 =
      .error (.registry .agentNotActive) :=
  ⟨(accept_complete_ignore_agent_status (sampleEscrow .funded) 500 7
      { sampleProfile with status := .inactive } 9 1000 3 1000 "t2" 250 0 2
      rfl rfl rfl).1 rfl,
   (accept_complete_ignore_agent_status (sampleEscrow .funded) 500 7
      { sampleProfile with status := .inactive } 9 1000 3 1000 "t2" 250 0 2
      rfl rfl rfl).2.2 (by decide) (by decide)⟩

/-- Claim C10: `rate_agent` requires the supplied profile to be exactly the
one referenced by the escrow's `agent` field: when the addresses differ it
fails with `AgentMismatch` even though the rating, escrow status and client
signature are all valid, and the profile is not mutated. -/
theorem rate_agent_mismatch_check (escrow : TaskEscrow)
    (agentProfileKey : Pubkey) (profile : AgentProfile) (client : Pubkey)
    (rating : Nat)
    (hc : escrow.client = client) (h1 : 1 ≤ rating) (h5 : rating ≤ 5)
    (hs : escrow.status = .completed) (hne : agentProfileKey ≠ escrow.agent) :
    rateAgentTx escrow agentProfileKey profile client rating =
      .error (.registry .agentMismatch) ∧
    commitRate escrow agentProfileKey profile client rating = profile := by
  have h : rateAgentTx escrow agentProfileKey profile client rating =
      .error (.registry .agentMismatch) := by
    simp [rateAgentTx, hc, hne]
  exact ⟨h, by simp [commitRate, h]⟩

/-- Witness for C10 at a concrete mismatched profile address. -/
theorem rate_agent_mismatch_check_witness :
    rateAgentTx (sampleEscrow .completed) 8 sampleProfile 3 5 =
      .error (.registry .agentMismatch) ∧
    commitRate (sampleEscrow .completed) 8 sampleProfile 3 5 = sampleProfile :=
  rate_agent_mismatch_check (sampleEscrow .completed) 8 sampleProfile 3 5
    rfl (by decide) (by decide) rfl (by decide)

/-- Claim C7: `create_task` fails for every input when the referenced profile
is not `Active` (whatever the amount and task_id are); when the profile is
`Active` it fails with `TaskIdTooLong` when `task_id` exceeds 64 bytes and —
the length check coming first in the source — with `InvalidAmount` when the
task_id is in bounds and the amount is 0; and on every failure no escrow
record is created and the client's lamports are untouched. -/
theorem create_task_failure_spec (client : Pubkey) (clientLamports : Nat)
    (agentProfileKey : Pubkey) (agent_profile : AgentProfile)
    (task_id : String) (amount_lamports : Nat) (now : Int) (bump : Nat) :
    (agent_profile.status ≠ .active →
      ∀ r, createTaskTx client clientLamports agentProfileKey agent_profile
        task_id amount_lamports now bump ≠ .ok r) ∧
    (agent_profile.status = .active → 64 < task_id.utf8ByteSize →
      createTaskTx client clientLamports agentProfileKey agent_profile
        task_id amount_lamports now bump = .error (.registry .taskIdTooLong)) ∧
    (agent_profile.status = .active → task_id.utf8ByteSize ≤ 64 →
      amount_lamports = 0 →
      createTaskTx client clientLamports agentProfileKey agent_profile
        task_id amount_lamports now bump = .error (.registry .invalidAmount)) ∧
    (∀ err, createTaskTx client clientLamports agentProfileKey agent_profile
        task_id amount_lamports now bump = .error err →
      commitCreate client clientLamports agentProfileKey agent_profile
        task_id amount_lamports now bump = (none, clientLamports)) := by
  refine ⟨?_, ?_, ?_, ?_⟩
  · intro hs r h
    simp only [createTaskTx] at h
    split_ifs at h
  · intro _ ht
    simp [createTaskTx, ht]
  · intro _ ht ha
    simp [createTaskTx, ht, ha]
  · intro err h
    simp [commitCreate, h]

/-- Witness for C7: a valid request against an inactive profile fails, and
the commit keeps the client's lamports with no escrow created. -/
theorem create_task_failure_spec_witness :
    (∀ r, createTaskTx 3 1000 7 { sampleProfile with status := .inactive }
      "t3" 250 0 2 ≠ .ok r) ∧
    commitCreate 3 1000 7 { sampleProfile with status := .inactive }
      "t3" 250 0 2 = (none, 1000) :=
  ⟨(create_task_failure_spec 3 1000 7 { sampleProfile with status := .inactive }
      "t3" 250 0 2).1 (by decide),
   (create_task_failure_spec 3 1000 7 { sampleProfile with status := .inactive }
      "t3" 250 0 2).2.2.2 (.registry .agentNotActive) rfl⟩

/-- Helper: under the `rate_agent` preconditions the call succeeds. -/
lemma rateAgentTx_ok_exists (escrow : TaskEscrow) (agentProfileKey : Pubkey)
    (profile : AgentProfile) (client : Pubkey) (rating : Nat)
    (hc : escrow.client = client) (hk : agentProfileKey = escrow.agent)
    (h1 : 1 ≤ rating) (h5 : rating ≤ 5) (hs : escrow.status = .completed) :
    ∃ p', rateAgentTx escrow agentProfileKey profile client rating = .ok p' :=
  ⟨{ profile with
     total_ratings := profile.total_ratings + 1
     rating_sum := profile.rating_sum + rating
     reputation_score :=
       (profile.rating_sum + rating) * 100 / (profile.total_ratings + 1) },
   by simp [rateAgentTx, hc, hk, hs, h1, h5]⟩

/-- Claim C5: with the client signature and matching profile address,
`rate_agent` on a `Completed` escrow with rating in [1,5] succeeds and sets
`total_ratings`, `rating_sum` and `reputation_score` exactly as specified
(truncating division); it fails with `InvalidRating` for a rating outside
[1,5] and with `InvalidTaskStatus` when the escrow is not `Completed`; and
nothing prevents the same client from rating the same completed escrow again:
the immediately repeated call also succeeds. -/
theorem rate_agent_spec (escrow : TaskEscrow) (agentProfileKey : Pubkey)
    (profile : AgentProfile) (client : Pubkey) (rating : Nat)
    (hc : escrow.client = client) (hk : agentProfileKey = escrow.agent) :
    (1 ≤ rating → rating ≤ 5 → escrow.status = .completed →
      rateAgentTx escrow agentProfileKey profile client rating =
        .ok { profile with
              total_ratings := profile.total_ratings + 1
              rating_sum := profile.rating_sum + rating
              reputation_score :=
                (profile.rating_sum + rating) * 100 / (profile.total_ratings + 1) } ∧
      ∀ rating2, 1 ≤ rating2 → rating2 ≤ 5 →
        ∃ p2, rateAgentTx escrow agentProfileKey
          (commitRate escrow agentProfileKey profile client rating) client rating2 =
            .ok p2) ∧
    (¬ (1 ≤ rating ∧ rating ≤ 5) →
      rateAgentTx escrow agentProfileKey profile client rating =
        .error (.registry .invalidRating)) ∧
    (1 ≤ rating → rating ≤ 5 → escrow.status ≠ .completed →
      rateAgentTx escrow agentProfileKey profile client rating =
        .error (.registry .invalidTaskStatus)) := by
  refine ⟨?_, ?_, ?_⟩
  · intro h1 h5 hs
    constructor
    · simp [rateAgentTx, hc, hk, hs, h1, h5]
    · intro rating2 h1' h5'
      exact rateAgentTx_ok_exists escrow agentProfileKey
        (commitRate escrow agentProfileKey profile client rating) client rating2
        hc hk h1' h5' hs
  · intro hr
    simp only [rateAgentTx]
    rw [if_neg (by simp [hc]), if_neg (by simp [hk]), if_pos hr]
  · intro h1 h5 hs
    simp [rateAgentTx, hc, hk, hs, h1, h5]

/-- Witness for C5 at a concrete completed escrow rated 4 and then 5 by the
same client. -/
theorem rate_agent_spec_witness :
    rateAgentTx (sampleEscrow .completed) 7 sampleProfile 3 4 =
      .ok { sampleProfile with
            total_ratings := sampleProfile.total_ratings + 1
            rating_sum := sampleProfile.rating_sum + 4
            reputation_score :=
              (sampleProfile.rating_sum + 4) * 100 / (sampleProfile.total_ratings + 1) } ∧
    ∃ p2, rateAgentTx (sampleEscrow .completed) 7
      (commitRate (sampleEscrow .completed) 7 sampleProfile 3 4) 3 5 = .ok p2 :=
  ⟨((rate_agent_spec (sampleEscrow .completed) 7 sampleProfile 3 4 rfl rfl).1
      (by decide) (by decide) rfl).1,
   ((rate_agent_spec (sampleEscrow .completed) 7 sampleProfile 3 4 rfl rfl).1
      (by decide) (by decide) rfl).2 5 (by decide) (by decide)⟩

/-! ### Characterization of `update_agent` -/

/-- A successful `updateName` step: every field but `name` is preserved, and
a supplied name passed the registration length check. -/
lemma updateName_ok_fields {p p' : AgentProfile} {name : Option String}
    (h : updateName p name = .ok p') :
    p'.owner = p.owner ∧ p'.capabilities = p.capabilities ∧
    p'.pricing_lamports = p.pricing_lamports ∧ p'.status = p.status ∧
    p'.reputation_score = p.reputation_score ∧
    p'.tasks_completed = p.tasks_completed ∧
    p'.total_ratings = p.total_ratings ∧ p'.rating_sum = p.rating_sum ∧
    p'.metadata_uri = p.metadata_uri ∧ p'.bump = p.bump ∧
    (name = none → p'.name = p.name) ∧
    (∀ n, name = some n → p'.name = n ∧ n.utf8ByteSize ≤ MAX_NAME_LEN) := by
  cases name with
  | none =>
    simp only [updateName] at h
    cases h
    simp
  | some n =>
    simp only [updateName] at h
    split_ifs at h with hl
    injection h with h
    subst h
    refine ⟨rfl, rfl, rfl, rfl, rfl, rfl, rfl, rfl, rfl, rfl, by simp, ?_⟩
    intro n' hn
    cases hn
    exact ⟨rfl, Nat.not_lt.mp hl⟩

/-- A successful `updateCapabilities` step: every field but `capabilities` is
preserved, and supplied capabilities passed the registration checks. -/
lemma updateCapabilities_ok_fields {p p' : AgentProfile}
    {c : Option (List String)} (h : updateCapabilities p c = .ok p') :
    p'.owner = p.owner ∧ p'.name = p.name ∧
    p'.pricing_lamports = p.pricing_lamports ∧ p'.status = p.status ∧
    p'.reputation_score = p.reputation_score ∧
    p'.tasks_completed = p.tasks_completed ∧
    p'.total_ratings = p.total_ratings ∧ p'.rating_sum = p.rating_sum ∧
    p'.metadata_uri = p.metadata_uri ∧ p'.bump = p.bump ∧
    (c = none → p'.capabilities = p.capabilities) ∧
    (∀ caps, c = some caps → p'.capabilities = caps ∧
      caps.length ≤ MAX_CAPABILITIES ∧
      ∀ cap ∈ caps, cap.utf8ByteSize ≤ MAX_CAPABILITY_LEN) := by
  cases c with
  | none =>
    simp only [updateCapabilities] at h
    cases h
    simp
  | some caps =>
    simp only [updateCapabilities] at h
    split_ifs at h with hl ha
    injection h with h
    subst h
    simp only [List.any_eq_true, decide_eq_true_eq] at ha
    push_neg at ha
    refine ⟨rfl, rfl, rfl, rfl, rfl, rfl, rfl, rfl, rfl, rfl, by simp, ?_⟩
    intro caps' hc
    cases hc
    exact ⟨rfl, Nat.not_lt.mp hl, fun cap hcap => ha cap hcap⟩

/-- A successful `updatePricing` step: every field but `pricing_lamports` is
preserved, and a supplied pricing is positive. -/
lemma updatePricing_ok_fields {p p' : AgentProfile} {pr : Option Nat}
    (h : updatePricing p pr = .ok p') :
    p'.owner = p.owner ∧ p'.name = p.name ∧
    p'.capabilities = p.capabilities ∧ p'.status = p.status ∧
    p'.reputation_score = p.reputation_score ∧
    p'.tasks_completed = p.tasks_completed ∧
    p'.total_ratings = p.total_ratings ∧ p'.rating_sum = p.rating_sum ∧
    p'.metadata_uri = p.metadata_uri ∧ p'.bump = p.bump ∧
    (pr = none → p'.pricing_lamports = p.pricing_lamports) ∧
    (∀ v, pr = some v → p'.pricing_lamports = v ∧ 0 < v) := by
  cases pr with
  | none =>
    simp only [updatePricing] at h
    cases h
    simp
  | some v =>
    simp only [updatePricing] at h
    split_ifs at h with hz
    injection h with h
    subst h
    refine ⟨rfl, rfl, rfl, rfl, rfl, rfl, rfl, rfl, rfl, rfl, by simp, ?_⟩
    intro v' hv
    cases hv
    exact ⟨rfl, Nat.pos_of_ne_zero hz⟩

/-- A successful `updateMetadataUri` step: every field but `metadata_uri` is
preserved, and a supplied URI passed the registration length check. -/
lemma updateMetadataUri_ok_fields {p p' : AgentProfile} {u : Option String}
    (h : updateMetadataUri p u = .ok p') :
    p'.owner = p.owner ∧ p'.name = p.name ∧
    p'.capabilities = p.capabilities ∧ p'.status = p.status ∧
    p'.reputation_score = p.reputation_score ∧
    p'.tasks_completed = p.tasks_completed ∧
    p'.total_ratings = p.total_ratings ∧ p'.rating_sum = p.rating_sum ∧
    p'.pricing_lamports = p.pricing_lamports ∧ p'.bump = p.bump ∧
    (u = none → p'.metadata_uri = p.metadata_uri) ∧
    (∀ uri, u = some uri → p'.metadata_uri = uri ∧
      uri.utf8ByteSize ≤ MAX_METADATA_URI_LEN) := by
  cases u with
  | none =>
    simp only [updateMetadataUri] at h
    cases h
    simp
  | some uri =>
    simp only [updateMetadataUri] at h
    split_ifs at h with hl
    injection h with h
    subst h
    refine ⟨rfl, rfl, rfl, rfl, rfl, rfl, rfl, rfl, rfl, rfl, by simp, ?_⟩
    intro uri' hu
    cases hu
    exact ⟨rfl, Nat.not_lt.mp hl⟩

/-- A successful `update_agent` transaction decomposes into its four
sequential field updates, and the signer matched the profile owner. -/
lemma updateAgentTx_ok_chain {p : AgentProfile} {owner : Pubkey}
    {name : Option String} {c : Option (List String)} {pr : Option Nat}
    {u : Option String} {p' : AgentProfile}
    (h : updateAgentTx p owner name c pr u = .ok p') :
    p.owner = owner ∧ ∃ p1 p2 p3,
      updateName p name = .ok p1 ∧ updateCapabilities p1 c = .ok p2 ∧
      updatePricing p2 pr = .ok p3 ∧ updateMetadataUri p3 u = .ok p' := by
  simp only [updateAgentTx] at h
  split_ifs at h with how
  refine ⟨not_ne_iff.mp how, ?_⟩
  cases e1 : updateName p name with
  | error err => rw [e1] at h; simp [Except.bind] at h
  | ok p1 =>
    rw [e1] at h
    simp only [Except.bind] at h
    cases e2 : updateCapabilities p1 c with
    | error err => rw [e2] at h; simp [Except.bind] at h
    | ok p2 =>
      rw [e2] at h
      simp only [Except.bind] at h
      cases e3 : updatePricing p2 pr with
      | error err => rw [e3] at h; simp [Except.bind] at h
      | ok p3 =>
        rw [e3] at h
        simp only [Except.bind] at h
        exact ⟨p1, p2, p3, rfl, e2, e3, h⟩

/-- Full characterization of a successful `update_agent` transaction:
frame fields are untouched, omitted parameters leave their fields unchanged,
supplied parameters replace exactly their field and passed the registration
validation rules. -/
lemma updateAgentTx_ok_spec {p : AgentProfile} {owner : Pubkey}
    {name : Option String} {c : Option (List String)} {pr : Option Nat}
    {u : Option String} {p' : AgentProfile}
    (h : updateAgentTx p owner name c pr u = .ok p') :
    p'.owner = p.owner ∧ p'.status = p.status ∧
    p'.reputation_score = p.reputation_score ∧
    p'.tasks_completed = p.tasks_completed ∧
    p'.total_ratings = p.total_ratings ∧ p'.rating_sum = p.rating_sum ∧
    p'.bump = p.bump ∧
    (name = none → p'.name = p.name) ∧
    (∀ n, name = some n → p'.name = n ∧ n.utf8ByteSize ≤ MAX_NAME_LEN) ∧
    (c = none → p'.capabilities = p.capabilities) ∧
    (∀ caps, c = some caps → p'.capabilities = caps ∧
      caps.length ≤ MAX_CAPABILITIES ∧
      ∀ cap ∈ caps, cap.utf8ByteSize ≤ MAX_CAPABILITY_LEN) ∧
    (pr = none → p'.pricing_lamports = p.pricing_lamports) ∧
    (∀ v, pr = some v → p'.pricing_lamports = v ∧ 0 < v) ∧
    (u = none → p'.metadata_uri = p.metadata_uri) ∧
    (∀ uri, u = some uri → p'.metadata_uri = uri ∧
      uri.utf8ByteSize ≤ MAX_METADATA_URI_LEN) := by
  obtain ⟨-, p1, p2, p3, e1, e2, e3, e4⟩ := updateAgentTx_ok_chain h
  obtain ⟨f1o, f1c, f1p, f1s, f1r, f1t, f1tr, f1rs, f1u, f1b, f1nn, f1ns⟩ :=
    updateName_ok_fields e1
  obtain ⟨f2o, f2n, f2p, f2s, f2r, f2t, f2tr, f2rs, f2u, f2b, f2cn, f2cs⟩ :=
    updateCapabilities_ok_fields e2
  obtain ⟨f3o, f3n, f3c, f3s, f3r, f3t, f3tr, f3rs, f3u, f3b, f3pn, f3ps⟩ :=
    updatePricing_ok_fields e3
  obtain ⟨f4o, f4n, f4c, f4s, f4r, f4t, f4tr, f4rs, f4p, f4b, f4un, f4us⟩ :=
    updateMetadataUri_ok_fields e4
  refine ⟨f4o.trans (f3o.trans (f2o.trans f1o)),
          f4s.trans (f3s.trans (f2s.trans f1s)),
          f4r.trans (f3r.trans (f2r.trans f1r)),
          f4t.trans (f3t.trans (f2t.trans f1t)),
          f4tr.trans (f3tr.trans (f2tr.trans f1tr)),
          f4rs.trans (f3rs.trans (f2rs.trans f1rs)),
          f4b.trans (f3b.trans (f2b.trans f1b)), ?_, ?_, ?_, ?_, ?_, ?_, ?_, ?_⟩
  · intro hn
    exact (f4n.trans (f3n.trans f2n)).trans (f1nn hn)
  · intro n hn
    obtain ⟨e, hb⟩ := f1ns n hn
    exact ⟨(f4n.trans (f3n.trans f2n)).trans e, hb⟩
  · intro hc
    exact (f4c.trans f3c).trans ((f2cn hc).trans f1c)
  · intro caps hc
    obtain ⟨e, h8, hall⟩ := f2cs caps hc
    exact ⟨(f4c.trans f3c).trans e, h8, hall⟩
  · intro hp
    exact f4p.trans ((f3pn hp).trans (f2p.trans f1p))
  · intro v hv
    obtain ⟨e, hpos⟩ := f3ps v hv
    exact ⟨f4p.trans e, hpos⟩
  · intro hu
    exact (f4un hu).trans (f3u.trans (f2u.trans f1u))
  · intro uri hu
    exact f4us uri hu

/-- Claim C8: on every successful `update_agent` call, omitted (`None`)
parameters leave their fields exactly unchanged, supplied (`Some`) parameters
replace only their corresponding field after passing the same validation
rules as registration, and all other profile fields (owner, status,
reputation_score, tasks_completed, total_ratings, rating_sum, bump) are
unchanged in every case. -/
theorem update_agent_frame_spec (p : AgentProfile) (owner : Pubkey)
    (name : Option String) (c : Option (List String)) (pr : Option Nat)
    (u : Option String) (p' : AgentProfile)
    (h : updateAgentTx p owner name c pr u = .ok p') :
    p'.owner = p.owner ∧ p'.status = p.status ∧
    p'.reputation_score = p.reputation_score ∧
    p'.tasks_completed = p.tasks_completed ∧
    p'.total_ratings = p.total_ratings ∧ p'.rating_sum = p.rating_sum ∧
    p'.bump = p.bump ∧
    (name = none → p'.name = p.name) ∧
    (∀ n, name = some n → p'.name = n ∧ n.utf8ByteSize ≤ MAX_NAME_LEN) ∧
    (c = none → p'.capabilities = p.capabilities) ∧
    (∀ caps, c = some caps → p'.capabilities = caps ∧
      caps.length ≤ MAX_CAPABILITIES ∧
      ∀ cap ∈ caps, cap.utf8ByteSize ≤ MAX_CAPABILITY_LEN) ∧
    (pr = none → p'.pricing_lamports = p.pricing_lamports) ∧
    (∀ v, pr = some v → p'.pricing_lamports = v ∧ 0 < v) ∧
    (u = none → p'.metadata_uri = p.metadata_uri) ∧
    (∀ uri, u = some uri → p'.metadata_uri = uri ∧
      uri.utf8ByteSize ≤ MAX_METADATA_URI_LEN) :=
  updateAgentTx_ok_spec h

/-- Witness for C8: a concrete partial update (new name and pricing, omitted
capabilities and metadata URI). -/
theorem update_agent_frame_spec_witness :
    ({ sampleProfile with name := "bot", pricing_lamports := 42 } : AgentProfile).owner =
        sampleProfile.owner ∧
    ({ sampleProfile with name := "bot", pricing_lamports := 42 } : AgentProfile).status =
        sampleProfile.status ∧
    ({ sampleProfile with name := "bot", pricing_lamports := 42 } : AgentProfile).reputation_score =
        sampleProfile.reputation_score ∧
    ({ sampleProfile with name := "bot", pricing_lamports := 42 } : AgentProfile).tasks_completed =
        sampleProfile.tasks_completed ∧
    ({ sampleProfile with name := "bot", pricing_lamports := 42 } : AgentProfile).total_ratings =
        sampleProfile.total_ratings ∧
    ({ sampleProfile with name := "bot", pricing_lamports := 42 } : AgentProfile).rating_sum =
        sampleProfile.rating_sum ∧
    ({ sampleProfile with name := "bot", pricing_lamports := 42 } : AgentProfile).bump =
        sampleProfile.bump ∧
    ((some "bot" : Option String) = none →
      ({ sampleProfile with name := "bot", pricing_lamports := 42 } : AgentProfile).name =
        sampleProfile.name) ∧
    (∀ n, (some "bot" : Option String) = some n →
      ({ sampleProfile with name := "bot", pricing_lamports := 42 } : AgentProfile).name = n ∧
      n.utf8ByteSize ≤ MAX_NAME_LEN) ∧
    ((none : Option (List String)) = none →
      ({ sampleProfile with name := "bot", pricing_lamports := 42 } : AgentProfile).capabilities =
        sampleProfile.capabilities) ∧
    (∀ caps, (none : Option (List String)) = some caps →
      ({ sampleProfile with name := "bot", pricing_lamports := 42 } : AgentProfile).capabilities = caps ∧
      caps.length ≤ MAX_CAPABILITIES ∧
      ∀ cap ∈ caps, cap.utf8ByteSize ≤ MAX_CAPABILITY_LEN) ∧
    ((some 42 : Option Nat) = none →
      ({ sampleProfile with name := "bot", pricing_lamports := 42 } : AgentProfile).pricing_lamports =
        sampleProfile.pricing_lamports) ∧
    (∀ v, (some 42 : Option Nat) = some v →
      ({ sampleProfile with name := "bot", pricing_lamports := 42 } : AgentProfile).pricing_lamports = v ∧
      0 < v) ∧
    ((none : Option String) = none →
      ({ sampleProfile with name := "bot", pricing_lamports := 42 } : AgentProfile).metadata_uri =
        sampleProfile.metadata_uri) ∧
    (∀ uri, (none : Option String) = some uri →
      ({ sampleProfile with name := "bot", pricing_lamports := 42 } : AgentProfile).metadata_uri = uri ∧
      uri.utf8ByteSize ≤ MAX_METADATA_URI_LEN) :=
  update_agent_frame_spec sampleProfile 9 (some "bot") none (some 42) none
    { sampleProfile with name := "bot", pricing_lamports := 42 } rfl

/-- Claim C3: an erroring operation commits nothing — for each mutating
operation the committed state on error is exactly the pre-state (no partial
writes, no partial fund movement); in particular an `update_agent` call with
a valid name but an over-long capability fails with `CapabilityTooLong` and
modifies no field of the profile, including the valid one. -/
theorem error_implies_no_state_change :
    (∀ (p : AgentProfile) (owner : Pubkey) (name : Option String)
       (c : Option (List String)) (pr : Option Nat) (u : Option String) err,
      updateAgentTx p owner name c pr u = .error err →
      commitUpdate p owner name c pr u = p) ∧
    (∀ (e : TaskEscrow) (k : Pubkey) (p : AgentProfile) (o : Pubkey) err,
      acceptTaskTx e k p o = .error err → commitAccept e k p o = e) ∧
    (∀ (e : TaskEscrow) (el : Nat) (k : Pubkey) (p : AgentProfile) (o : Pubkey)
       (ol : Nat) err,
      completeTaskTx e el k p o ol = .error err →
      commitComplete e el k p o ol = (e, el, p, ol)) ∧
    (∀ (e : TaskEscrow) (k : Pubkey) (p : AgentProfile) (cl : Pubkey) (r : Nat) err,
      rateAgentTx e k p cl r = .error err → commitRate e k p cl r = p) ∧
    (∀ (cl : Pubkey) (cll : Nat) (k : Pubkey) (p : AgentProfile) (tid : String)
       (amt : Nat) (now : Int) (bump : Nat) err,
      createTaskTx cl cll k p tid amt now bump = .error err →
      commitCreate cl cll k p tid amt now bump = (none, cll)) ∧
    (∀ (p : AgentProfile) (owner : Pubkey) (n : String) (caps : List String)
       (pr : Option Nat) (u : Option String),
      p.owner = owner → n.utf8ByteSize ≤ MAX_NAME_LEN →
      caps.length ≤ MAX_CAPABILITIES →
      (∃ cap ∈ caps, MAX_CAPABILITY_LEN < cap.utf8ByteSize) →
      updateAgentTx p owner (some n) (some caps) pr u =
        .error (.registry .capabilityTooLong) ∧
      commitUpdate p owner (some n) (some caps) pr u = p) := by
  refine ⟨?_, ?_, ?_, ?_, ?_, ?_⟩
  · intro p owner name c pr u err h
    simp [commitUpdate, h]
  · intro e k p o err h
    simp [commitAccept, h]
  · intro e el k p o ol err h
    simp [commitComplete, h]
  · intro e k p cl r err h
    simp [commitRate, h]
  · intro cl cll k p tid amt now bump err h
    simp [commitCreate, h]
  · intro p owner n caps pr u how hn hlen hbad
    have hname : updateName p (some n) = .ok { p with name := n } := by
      simp [updateName, Nat.not_lt.mpr hn]
    have hany : caps.any (fun cap => MAX_CAPABILITY_LEN < cap.utf8ByteSize) = true := by
      simp only [List.any_eq_true, decide_eq_true_eq]
      exact hbad
    have hcaps : ∀ q : AgentProfile, updateCapabilities q (some caps) =
        .error (.registry .capabilityTooLong) := fun q => by
      simp [updateCapabilities, Nat.not_lt.mpr hlen, hany]
    have herr : updateAgentTx p owner (some n) (some caps) pr u =
        .error (.registry .capabilityTooLong) := by
      simp [updateAgentTx, how, hname, hcaps, Except.bind]
    exact ⟨herr, by simp [commitUpdate, herr]⟩

/-- Witness for C3: a concrete update with a valid name and one over-long
capability fails with `CapabilityTooLong` and commits nothing. -/
theorem error_implies_no_state_change_witness :
    updateAgentTx sampleProfile 9 (some "newname")
      (some ["ok", "cccccccccccccccccccccccccccccccc-33"]) none none =
      .error (.registry .capabilityTooLong) ∧
    commitUpdate sampleProfile 9 (some "newname")
      (some ["ok", "cccccccccccccccccccccccccccccccc-33"]) none none =
      sampleProfile :=
  error_implies_no_state_change.2.2.2.2.2 sampleProfile 9 "newname"
    ["ok", "cccccccccccccccccccccccccccccccc-33"] none none rfl (by decide)
    (by decide)
    ⟨"cccccccccccccccccccccccccccccccc-33", by decide⟩

/-! ### Trace lemmas and the two reachability claims -/

/-- A successful registration zeroes the rating counters and the score. -/
lemma registerAgent_ok_init {owner : Pubkey} {name : String}
    {caps : List String} {pricing : Nat} {uri : String} {bump : Nat}
    {p0 : AgentProfile}
    (h : registerAgent owner name caps pricing uri bump = .ok p0) :
    p0.total_ratings = 0 ∧ p0.reputation_score = 0 := by
  simp only [registerAgent] at h
  split_ifs at h
  injection h with h
  subst h
  exact ⟨rfl, rfl⟩

/-- One committed operation preserves the reputation invariant. -/
lemma stepProfile_rep (p : AgentProfile) (op : ProfileOp)
    (hp : RepInvariant p) : RepInvariant (stepProfile p op) := by
  cases op with
  | update owner name c pr u =>
    simp only [stepProfile, commitUpdate]
    cases h : updateAgentTx p owner name c pr u with
    | error err => exact hp
    | ok p' =>
      obtain ⟨-, -, hrep, -, htot, hsum, -, -, -, -, -, -, -, -, -⟩ :=
        updateAgentTx_ok_spec h
      show RepInvariant p'
      refine ⟨fun h0 => ?_, fun h0 => ?_⟩
      · rw [hrep, htot, hsum]
        exact hp.1 (by rwa [htot] at h0)
      · rw [hrep]
        exact hp.2 (by rwa [htot] at h0)
  | deactivate owner =>
    simp only [stepProfile, deactivateAgentTx]
    split_ifs with h
    · exact hp
    · exact hp
  | activate owner =>
    simp only [stepProfile, activateAgentTx]
    split_ifs with h
    · exact hp
    · exact hp
  | createTask cl cll k tid amt now bump => exact hp
  | acceptTask e k o => exact hp
  | completeTask e el k o ol =>
    simp only [stepProfile]
    cases h : completeTaskTx e el k p o ol with
    | error err => exact hp
    | ok r =>
      simp only [completeTaskTx] at h
      split_ifs at h
      injection h with h
      subst h
      exact hp
  | rate e k c r =>
    simp only [stepProfile, commitRate]
    cases h : rateAgentTx e k p c r with
    | error err => exact hp
    | ok p' =>
      simp only [rateAgentTx] at h
      split_ifs at h
      injection h with h
      subst h
      exact ⟨fun _ => rfl, fun h0 => absurd h0 (Nat.succ_ne_zero _)⟩

/-- Claim C2: every agent profile reachable from a successful registration by
any sequence of the program's operations satisfies the reputation invariant:
`reputation_score = floor(rating_sum * 100 / total_ratings)` when
`total_ratings > 0`, and `reputation_score = 0` when `total_ratings = 0`. -/
theorem reputation_invariant_reachable (owner : Pubkey) (name : String)
    (caps : List String) (pricing : Nat) (uri : String) (bump : Nat)
    (p0 : AgentProfile) (ops : List ProfileOp)
    (h : registerAgent owner name caps pricing uri bump = .ok p0) :
    RepInvariant (runProfileOps p0 ops) := by
  have h0 : RepInvariant p0 := by
    obtain ⟨ht, hr⟩ := registerAgent_ok_init h
    exact ⟨fun hx => absurd ht hx, fun _ => hr⟩
  clear h
  induction ops generalizing p0 with
  | nil => exact h0
  | cons op ops ih =>
    simp only [runProfileOps, List.foldl] at h0 ⊢
    exact ih _ (stepProfile_rep p0 op h0)

/-- Witness for C2: a freshly registered profile rated 5 once on a completed
escrow still satisfies the invariant. -/
theorem reputation_invariant_reachable_witness :
    RepInvariant (runProfileOps sampleProfile
      [ProfileOp.rate (sampleEscrow .completed) 7 3 5]) :=
  reputation_invariant_reachable 9 "agent" ["code"] 100 "" 1 sampleProfile
    [ProfileOp.rate (sampleEscrow .completed) 7 3 5] rfl

/-- One committed operation either leaves the escrow unchanged or advances
its status one step along `Funded → InProgress → Completed`. -/
lemma stepEscrow_cases (e : TaskEscrow) (op : EscrowOp) :
    stepEscrow e op = e ∨
    (e.status = .funded ∧ stepEscrow e op = { e with status := .inProgress }) ∨
    (e.status = .inProgress ∧ stepEscrow e op = { e with status := .completed }) := by
  cases op with
  | accept k p o =>
    simp only [stepEscrow, commitAccept, acceptTaskTx]
    split_ifs with h1 h2 h3
    · left; rfl
    · left; rfl
    · left; rfl
    · right; left; exact ⟨not_ne_iff.mp h3, rfl⟩
  | complete el k p o ol =>
    simp only [stepEscrow, commitComplete, completeTaskTx]
    split_ifs with h1 h2 h3
    · left; rfl
    · left; rfl
    · left; rfl
    · right; right; exact ⟨not_ne_iff.mp h3, rfl⟩
  | rate k p c r => left; rfl

/-- Claim C4: the escrow status only ever advances forward along
`Funded → InProgress → Completed`: each committed operation either leaves the
record unchanged or performs one of the two forward transitions, the rank
never decreases, no operation ever sets `Disputed`, no operation consumes
`Disputed`, and every escrow produced by `create_task` starts `Funded` and
never reaches `Disputed` under any operation sequence. -/
theorem escrow_status_forward_only :
    (∀ (e : TaskEscrow) (op : EscrowOp),
      statusRank e.status ≤ statusRank (stepEscrow e op).status) ∧
    (∀ (e : TaskEscrow) (op : EscrowOp), stepEscrow e op ≠ e →
      (e.status = .funded ∧
        stepEscrow e op = { e with status := .inProgress }) ∨
      (e.status = .inProgress ∧
        stepEscrow e op = { e with status := .completed })) ∧
    (∀ (e : TaskEscrow) (op : EscrowOp),
      (stepEscrow e op).status = .disputed → e.status = .disputed) ∧
    (∀ (e : TaskEscrow) (op : EscrowOp),
      e.status = .disputed → stepEscrow e op = e) ∧
    (∀ (cl : Pubkey) (cll : Nat) (k : Pubkey) (p : AgentProfile)
       (tid : String) (amt : Nat) (now : Int) (bump : Nat)
       (esc : TaskEscrow) (el cl2 : Nat) (ops : List EscrowOp),
      createTaskTx cl cll k p tid amt now bump = .ok (esc, el, cl2) →
      esc.status = .funded ∧ (runEscrowOps esc ops).status ≠ .disputed) := by
  have hnd : ∀ (e : TaskEscrow) (op : EscrowOp),
      (stepEscrow e op).status = .disputed → e.status = .disputed := by
    intro e op hd
    rcases stepEscrow_cases e op with h | ⟨h1, h2⟩ | ⟨h1, h2⟩
    · rw [h] at hd; exact hd
    · rw [h2] at hd; simp at hd
    · rw [h2] at hd; simp at hd
  refine ⟨?_, ?_, hnd, ?_, ?_⟩
  · intro e op
    rcases stepEscrow_cases e op with h | ⟨h1, h2⟩ | ⟨h1, h2⟩
    · rw [h]
    · rw [h1, h2]; simp [statusRank]
    · rw [h1, h2]; simp [statusRank]
  · intro e op hne
    rcases stepEscrow_cases e op with h | h | h
    · exact absurd h hne
    · exact Or.inl h
    · exact Or.inr h
  · intro e op hd
    rcases stepEscrow_cases e op with h | ⟨h1, h2⟩ | ⟨h1, h2⟩
    · exact h
    · rw [hd] at h1; simp at h1
    · rw [hd] at h1; simp at h1
  · intro cl cll k p tid amt now bump esc el cl2 ops h
    have hesc : esc.status = .funded := by
      simp only [createTaskTx] at h
      split_ifs at h
      injection h with h1
      injection h1 with ha hb
      subst ha
      rfl
    refine ⟨hesc, ?_⟩
    have hrun : ∀ (l : List EscrowOp) (e : TaskEscrow),
        e.status ≠ .disputed → (runEscrowOps e l).status ≠ .disputed := by
      intro l
      induction l with
      | nil => intro e he; exact he
      | cons op ops ih =>
        intro e he
        simp only [runEscrowOps, List.foldl] at ih ⊢
        exact ih _ (fun hd => he (hnd e op hd))
    exact hrun ops esc (by rw [hesc]; simp)

/-- Witness for C4: the escrow created by a concrete `create_task` call,
then accepted and completed, never reaches `Disputed`. -/
theorem escrow_status_forward_only_witness :
    (createTaskTx 3 1000 7 sampleProfile "t1" 500 0 2 =
      .ok (sampleEscrow .funded, 500, 500)) ∧
    (sampleEscrow .funded).status = .funded ∧
    (runEscrowOps (sampleEscrow .funded)
      [EscrowOp.accept 7 sampleProfile 9,
       EscrowOp.complete 500 7 sampleProfile 9 1000]).status ≠ .disputed :=
  ⟨rfl,
   escrow_status_forward_only.2.2.2.2 3 1000 7 sampleProfile "t1" 500 0 2
     (sampleEscrow .funded) 500 500
     [EscrowOp.accept 7 sampleProfile 9,
      EscrowOp.complete 500 7 sampleProfile 9 1000] rfl⟩

end AgentRegistry
